import Mathlib

/-
Verification of the real-time sentiment pipeline of the ChromePlugin
repository (backend/app/services): the sliding-window sentiment trend
tracker, the sentiment label thresholds, the Vosk streaming-recognition
bridge, and the email alert rate limiter.

Floating-point values (compound scores, thresholds, wall-clock
timestamps from time.time / datetime.now) are modelled as rationals;
the Python deque of samples is modelled as a list whose head is the
left end of the deque (the oldest sample).
-/

/-- State of SentimentTrendTracker (sentiment_service.py): a retention
window in seconds and the retained samples, each a (timestamp, compound)
pair, oldest first. -/
structure SentimentTrendTracker where
  window_seconds : ℚ
  samples : List (ℚ × ℚ)

/-- The while-loop of SentimentTrendTracker._evict_old: pop samples from
the left end while the front sample's timestamp is older than
now - window_seconds. -/
def evict_old (window_seconds now : ℚ) : List (ℚ × ℚ) → List (ℚ × ℚ)
  | [] => []
  | s :: rest =>
      if s.1 < now - window_seconds then evict_old window_seconds now rest
      else s :: rest

/-- SentimentTrendTracker.add: append a sample timestamped now, then run
_evict_old(now). -/
def SentimentTrendTracker.add (tr : SentimentTrendTracker) (now compound : ℚ) :
    SentimentTrendTracker :=
  { tr with samples := evict_old tr.window_seconds now (tr.samples ++ [(now, compound)]) }

/-- SentimentTrendTracker.average: 0.0 when no samples are retained,
otherwise the sum of the compound values divided by the sample count. -/
def SentimentTrendTracker.average (tr : SentimentTrendTracker) : ℚ :=
  if tr.samples = [] then 0
  else ((tr.samples.map Prod.snd).sum) / (tr.samples.length : ℚ)

/-- SentimentTrendTracker.average performed as a method call on the
tracker: it reads the state and writes nothing back. -/
def SentimentTrendTracker.averageRun (tr : SentimentTrendTracker) :
    ℚ × SentimentTrendTracker :=
  (tr.average, tr)

/-- SentimentTrendTracker.sustained_negative: run _evict_old(now); if no
samples remain return False; filter the samples to those with
timestamp >= now - duration_sec; if none return False; otherwise return
whether their mean is <= threshold.  The pair returned is (result,
tracker state after the call), since the method mutates the deque via
_evict_old. -/
def SentimentTrendTracker.sustained_negative (tr : SentimentTrendTracker)
    (threshold duration_sec now : ℚ) : Bool × SentimentTrendTracker :=
  let evicted := evict_old tr.window_seconds now tr.samples
  let tr2 : SentimentTrendTracker := { tr with samples := evicted }
  if evicted = [] then (false, tr2)
  else
    let earliest := now - duration_sec
    let values := (evicted.filter (fun s => decide (earliest ≤ s.1))).map Prod.snd
    if values = [] then (false, tr2)
    else (decide (values.sum / (values.length : ℚ) ≤ threshold), tr2)

/-- On a list whose timestamps are nondecreasing from the front, the
front-only eviction loop removes exactly the samples older than
now - window_seconds. -/
theorem evict_old_eq_filter (w now : ℚ) :
    ∀ l : List (ℚ × ℚ), l.Pairwise (fun a b => a.1 ≤ b.1) →
      evict_old w now l = l.filter (fun s => decide (now - w ≤ s.1)) := by
  intro l
  induction l with
  | nil => intro _; rfl
  | cons hd tl ih =>
    intro hp
    rw [List.pairwise_cons] at hp
    by_cases hc : hd.1 < now - w
    · rw [evict_old, if_pos hc, List.filter_cons_of_neg, ih hp.2]
      simp only [decide_eq_true_eq]
      exact not_le.mpr hc
    · rw [evict_old, if_neg hc, List.filter_cons_of_pos, List.filter_eq_self.mpr]
      · intro a ha
        simp only [decide_eq_true_eq]
        exact le_trans (not_lt.mp hc) (hp.1 a ha)
      · simp only [decide_eq_true_eq]
        exact not_lt.mp hc

/-- Filtering by a predicate that no evicted sample can satisfy commutes
with the eviction loop: the loop only ever drops samples with
timestamp < now - window_seconds. -/
theorem filter_evict_old (w now : ℚ) (p : ℚ × ℚ → Bool)
    (hp : ∀ s, p s = true → ¬ (s.1 < now - w)) :
    ∀ l : List (ℚ × ℚ), (evict_old w now l).filter p = l.filter p := by
  intro l
  induction l with
  | nil => rfl
  | cons hd tl ih =>
    by_cases hc : hd.1 < now - w
    · rw [evict_old, if_pos hc, ih, List.filter_cons_of_neg]
      by_cases hph : p hd = true
      · exact absurd hc (hp hd hph)
      · simpa using hph
    · rw [evict_old, if_neg hc]

/-- Every branch of sustained_negative returns the tracker state produced
by the initial _evict_old(now) call; the duration_sec filtering never
writes back to the deque. -/
theorem sustained_negative_state (tr : SentimentTrendTracker)
    (threshold duration_sec now : ℚ) :
    (tr.sustained_negative threshold duration_sec now).2 =
      { tr with samples := evict_old tr.window_seconds now tr.samples } := by
  simp only [SentimentTrendTracker.sustained_negative]
  split_ifs <;> rfl

/-- Claim C1: with duration_sec no longer than the tracker's own
retention window (the claim's shorter lookback), sustained_negative
returns true exactly when some sample of the pre-call state lies within
the lookback (timestamp >= now - duration_sec) and the mean of the
compound values of the lookback samples is at most threshold; in
particular it returns false when no sample falls within the lookback. -/
theorem sustained_negative_mean_iff (tr : SentimentTrendTracker)
    (threshold duration_sec now : ℚ) (hd : duration_sec ≤ tr.window_seconds) :
    ((tr.sustained_negative threshold duration_sec now).1 = true ↔
      ((tr.samples.filter (fun s => decide (now - duration_sec ≤ s.1))).map Prod.snd ≠ [] ∧
        ((tr.samples.filter (fun s => decide (now - duration_sec ≤ s.1))).map Prod.snd).sum /
          ((((tr.samples.filter (fun s => decide (now - duration_sec ≤ s.1))).map
              Prod.snd).length : ℚ)) ≤ threshold)) := by
  have hp : ∀ s : ℚ × ℚ, (decide (now - duration_sec ≤ s.1)) = true →
      ¬ (s.1 < now - tr.window_seconds) := by
    intro s hs
    rw [decide_eq_true_eq] at hs
    have h2 : now - tr.window_seconds ≤ now - duration_sec := by linarith
    exact not_lt.mpr (le_trans h2 hs)
  have hfe := filter_evict_old tr.window_seconds now _ hp tr.samples
  simp only [SentimentTrendTracker.sustained_negative]
  split_ifs with h1 h2
  · have hnil : tr.samples.filter (fun s => decide (now - duration_sec ≤ s.1)) = [] := by
      rw [← hfe, h1]; rfl
    rw [hnil]
    simp
  · rw [hfe] at h2
    rw [h2]
    simp
  · rw [hfe] at h2
    rw [hfe]
    dsimp only
    rw [decide_eq_true_eq]
    exact (and_iff_right h2).symm

/-- Claim C3: on a state with nondecreasing sample timestamps all taken
before now and a nonnegative window, add(compound) appends the sample
(now, compound) and evicts exactly the samples older than
now - window_seconds, so after add (and likewise after the eviction done
by sustained_negative) every retained sample has timestamp at least
now - window_seconds; average reads the state without mutating it. -/
theorem tracker_window_invariant (tr : SentimentTrendTracker)
    (now compound threshold duration_sec : ℚ)
    (hsort : tr.samples.Pairwise (fun a b => a.1 ≤ b.1))
    (hpast : ∀ s ∈ tr.samples, s.1 ≤ now)
    (hw : 0 ≤ tr.window_seconds) :
    ((tr.add now compound).samples =
        (tr.samples ++ [(now, compound)]).filter
          (fun s => decide (now - tr.window_seconds ≤ s.1)) ∧
      (now, compound) ∈ (tr.add now compound).samples ∧
      (∀ s ∈ (tr.add now compound).samples, now - tr.window_seconds ≤ s.1) ∧
      (∀ s ∈ (tr.sustained_negative threshold duration_sec now).2.samples,
        now - tr.window_seconds ≤ s.1) ∧
      (tr.averageRun).2 = tr) := by
  have hsort2 : (tr.samples ++ [(now, compound)]).Pairwise (fun a b => a.1 ≤ b.1) := by
    rw [List.pairwise_append]
    refine ⟨hsort, List.pairwise_singleton _ _, ?_⟩
    intro a ha b hb
    rw [List.mem_singleton] at hb
    subst hb
    exact hpast a ha
  have hadd : (tr.add now compound).samples =
      (tr.samples ++ [(now, compound)]).filter
        (fun s => decide (now - tr.window_seconds ≤ s.1)) := by
    simp only [SentimentTrendTracker.add]
    exact evict_old_eq_filter _ _ _ hsort2
  refine ⟨hadd, ?_, ?_, ?_, rfl⟩
  · rw [hadd]
    refine List.mem_filter.mpr ⟨?_, ?_⟩
    · exact List.mem_append_right _ (List.mem_singleton.mpr rfl)
    · rw [decide_eq_true_eq]
      linarith
  · intro s hs
    rw [hadd] at hs
    have := (List.mem_filter.mp hs).2
    rwa [decide_eq_true_eq] at this
  · intro s hs
    rw [sustained_negative_state] at hs
    simp only at hs
    rw [evict_old_eq_filter _ _ _ hsort] at hs
    have := (List.mem_filter.mp hs).2
    rwa [decide_eq_true_eq] at this

/-- Claim C4: average times the number of retained samples equals the sum
of their compound values (so on a nonempty state it is their arithmetic
mean), and average is 0 on the empty state. -/
theorem average_is_mean (tr : SentimentTrendTracker) :
    tr.average * (tr.samples.length : ℚ) = (tr.samples.map Prod.snd).sum ∧
      (tr.samples = [] → tr.average = 0) := by
  constructor
  · by_cases h : tr.samples = []
    · simp [SentimentTrendTracker.average, h]
    · have hl : (tr.samples.length : ℚ) ≠ 0 := by
        have h0 : tr.samples.length ≠ 0 := by
          simpa [List.length_eq_zero] using h
        exact_mod_cast h0
      simp only [SentimentTrendTracker.average, if_neg h]
      exact div_mul_cancel₀ _ hl
  · intro h
    simp [SentimentTrendTracker.average, h]

/-- Tracker with retained compound values 0.2, -0.4, 0.6, used to check
the concrete rolling-average value from the spec. -/
def trendTrackerA : SentimentTrendTracker :=
  ⟨60, [(1, 1 / 5), (2, -2 / 5), (3, 3 / 5)]⟩

/-- Claim C7: average depends only on the multiset of retained compound
values (any permutation gives the same value), and on retained compound
values 0.2, -0.4, 0.6 it equals 2/15 = 0.1333... . -/
theorem average_perm_invariant :
    (∀ tr1 tr2 : SentimentTrendTracker,
        (tr1.samples.map Prod.snd).Perm (tr2.samples.map Prod.snd) →
        tr1.average = tr2.average) ∧
      trendTrackerA.average = 2 / 15 := by
  constructor
  · intro tr1 tr2 hperm
    have hlen : tr1.samples.length = tr2.samples.length := by
      have h := hperm.length_eq
      simpa using h
    have hsum : (tr1.samples.map Prod.snd).sum = (tr2.samples.map Prod.snd).sum :=
      hperm.sum_eq
    by_cases h1 : tr1.samples = []
    · have h2 : tr2.samples = [] := by
        have hm : tr2.samples.map Prod.snd = [] := by
          refine List.Perm.eq_nil ?_
          rw [h1] at hperm
          exact hperm.symm
        exact List.map_eq_nil_iff.mp hm
      simp [SentimentTrendTracker.average, h1, h2]
    · have h2 : tr2.samples ≠ [] := by
        intro h2
        apply h1
        have hm : tr1.samples.map Prod.snd = [] := by
          refine List.Perm.eq_nil ?_
          rw [h2] at hperm
          exact hperm
        exact List.map_eq_nil_iff.mp hm
      simp [SentimentTrendTracker.average, h1, h2, hsum, hlen]
  · have hne : trendTrackerA.samples ≠ [] := by simp [trendTrackerA]
    rw [SentimentTrendTracker.average, if_neg hne]
    norm_num [trendTrackerA]

/-- Claim C9: on a state with nondecreasing sample timestamps,
sustained_negative removes exactly the samples older than
now - window_seconds (its post state is the window filter of the pre
state), keeps window_seconds unchanged, and its post state does not
depend on duration_sec at all. -/
theorem sustained_negative_frame (tr : SentimentTrendTracker)
    (threshold duration_sec now : ℚ)
    (hsort : tr.samples.Pairwise (fun a b => a.1 ≤ b.1)) :
    ((tr.sustained_negative threshold duration_sec now).2.samples =
        tr.samples.filter (fun s => decide (now - tr.window_seconds ≤ s.1)) ∧
      (tr.sustained_negative threshold duration_sec now).2.window_seconds =
        tr.window_seconds ∧
      ∀ d2 : ℚ, (tr.sustained_negative threshold d2 now).2 =
        (tr.sustained_negative threshold duration_sec now).2) := by
  refine ⟨?_, ?_, ?_⟩
  · rw [sustained_negative_state]
    simp only
    exact evict_old_eq_filter _ _ _ hsort
  · rw [sustained_negative_state]
  · intro d2
    rw [sustained_negative_state, sustained_negative_state]

/-- Scores returned by the external VADER analyzer's polarity_scores for
one text: the compound value and the pos/neu/neg components
(sentiment_service.py consumes them through dict.get with default 0). -/
structure PolarityScores where
  compound : ℚ
  pos : ℚ
  neu : ℚ
  neg : ℚ

/-- Result record of SentimentService.analyze_text. -/
structure SentimentScore where
  compound : ℚ
  pos : ℚ
  neu : ℚ
  neg : ℚ
  label : String

/-- SentimentService.analyze_text, parametrised by the external analyzer
(a pure function from text to polarity scores): the label is positive
when compound >= 0.05, negative when compound <= -0.05, else neutral. -/
def SentimentService.analyze_text (polarity_scores : String → PolarityScores)
    (text : String) : SentimentScore :=
  let scores := polarity_scores text
  let compound := scores.compound
  let label :=
    if 1 / 20 ≤ compound then "positive"
    else if compound ≤ -(1 / 20) then "negative"
    else "neutral"
  { compound := compound, pos := scores.pos, neu := scores.neu,
    neg := scores.neg, label := label }

/-- Claim C6: the label assigned by analyze_text is a function of the
compound score alone, by the fixed thresholds: positive iff
compound >= 0.05, negative iff compound <= -0.05, neutral iff compound
lies strictly between. -/
theorem analyze_text_label_thresholds (polarity_scores : String → PolarityScores)
    (text : String) :
    (((SentimentService.analyze_text polarity_scores text).label = "positive" ↔
        1 / 20 ≤ (polarity_scores text).compound) ∧
      ((SentimentService.analyze_text polarity_scores text).label = "negative" ↔
        (polarity_scores text).compound ≤ -(1 / 20)) ∧
      ((SentimentService.analyze_text polarity_scores text).label = "neutral" ↔
        (-(1 / 20) < (polarity_scores text).compound ∧
          (polarity_scores text).compound < 1 / 20))) := by
  simp only [SentimentService.analyze_text]
  split_ifs with h1 h2
  · exact ⟨⟨fun _ => h1, fun _ => rfl⟩,
      ⟨fun h => absurd h (by decide), fun h => absurd (le_trans h1 h) (by norm_num)⟩,
      ⟨fun h => absurd h (by decide), fun h => absurd h1 (not_le.mpr h.2)⟩⟩
  · exact ⟨⟨fun h => absurd h (by decide), fun h => absurd h h1⟩,
      ⟨fun _ => h2, fun _ => rfl⟩,
      ⟨fun h => absurd h (by decide), fun h => absurd h2 (not_le.mpr h.1)⟩⟩
  · exact ⟨⟨fun h => absurd h (by decide), fun h => absurd h h1⟩,
      ⟨fun h => absurd h (by decide), fun h => absurd h h2⟩,
      ⟨fun _ => ⟨lt_of_not_le h2, lt_of_not_le h1⟩, fun _ => rfl⟩⟩

/-- One recognition result of STTService.stream_recognize: the text and
the partial-vs-final flag. -/
structure STTResult where
  text : String
  is_final : Bool
deriving DecidableEq

/-- The external Vosk KaldiRecognizer, as consumed by stream_recognize:
AcceptWaveform advances the state and reports whether a committed
utterance is available; resultData, interimData and finalData give the
text field extracted from the JSON of Result(), PartialResult() and
FinalResult() respectively, with none standing for a JSON decode
error. -/
structure VoskRecognizer (σ : Type) (Chunk : Type) where
  acceptWaveform : σ → Chunk → σ × Bool
  resultData : σ → Option String
  interimData : σ → Option String
  finalData : σ → Option String

/-- Python str.strip as applied to recognizer text: drop whitespace
characters from both ends, modelled over the character list of the
string. -/
def pyStrip (s : String) : String :=
  ⟨(((s.data.dropWhile Char.isWhitespace).reverse).dropWhile
      Char.isWhitespace).reverse⟩

/-- Text extraction done by stream_recognize around each recognizer
pull: strip the decoded text, and use the empty string when the JSON
could not be decoded. -/
def parsedText (o : Option String) : String :=
  match o with
  | none => ""
  | some s => pyStrip s

/-- Results yielded inside one iteration of the for-loop of
stream_recognize: a final result from Result() when AcceptWaveform
returns true, else a partial result from PartialResult(), in both cases
only when the stripped text is nonempty. -/
def STTService.emitted {σ Chunk : Type} (R : VoskRecognizer σ Chunk)
    (s : σ) (c : Chunk) : List STTResult :=
  let step := R.acceptWaveform s c
  if step.2 then
    let text := parsedText (R.resultData step.1)
    if text = "" then [] else [{ text := text, is_final := true }]
  else
    let text := parsedText (R.interimData step.1)
    if text = "" then [] else [{ text := text, is_final := false }]

/-- The trailing FinalResult() pull done by stream_recognize after the
chunk source is exhausted, yielded as a final result when nonempty. -/
def STTService.flushResult {σ Chunk : Type} (R : VoskRecognizer σ Chunk)
    (s : σ) : List STTResult :=
  let text := parsedText (R.finalData s)
  if text = "" then [] else [{ text := text, is_final := true }]

/-- STTService.stream_recognize over a finite chunk sequence: run the
per-chunk loop, then pull FinalResult() once and yield it when its text
is nonempty. -/
def STTService.stream_recognize {σ Chunk : Type} (R : VoskRecognizer σ Chunk) :
    σ → List Chunk → List STTResult
  | s, [] => STTService.flushResult R s
  | s, c :: cs =>
      STTService.emitted R s c ++
        STTService.stream_recognize R (R.acceptWaveform s c).1 cs

/-- Results yielded by the for-loop of stream_recognize alone, without
the trailing flush. -/
def STTService.loopResults {σ Chunk : Type} (R : VoskRecognizer σ Chunk) :
    σ → List Chunk → List STTResult
  | _, [] => []
  | s, c :: cs =>
      STTService.emitted R s c ++
        STTService.loopResults R (R.acceptWaveform s c).1 cs

/-- Recognizer state after the for-loop of stream_recognize has consumed
every chunk. -/
def STTService.endState {σ Chunk : Type} (R : VoskRecognizer σ Chunk) :
    σ → List Chunk → σ
  | s, [] => s
  | s, c :: cs => STTService.endState R (R.acceptWaveform s c).1 cs

/-- Claim C5: on every finite chunk sequence stream_recognize terminates
with exactly the loop results followed by the one trailing flush pull on
the post-loop recognizer state; the flush contributes at most one
result, that result is final with nonempty text, and it is yielded
exactly when the stripped trailing text is nonempty. -/
theorem stream_recognize_flush {σ Chunk : Type} (R : VoskRecognizer σ Chunk)
    (s : σ) (chunks : List Chunk) :
    (STTService.stream_recognize R s chunks =
        STTService.loopResults R s chunks ++
          STTService.flushResult R (STTService.endState R s chunks) ∧
      (STTService.flushResult R (STTService.endState R s chunks)).length ≤ 1 ∧
      (∀ r ∈ STTService.flushResult R (STTService.endState R s chunks),
        r.is_final = true ∧ r.text ≠ "") ∧
      (STTService.flushResult R (STTService.endState R s chunks) = [] ↔
        parsedText (R.finalData (STTService.endState R s chunks)) = "")) := by
  refine ⟨?_, ?_, ?_, ?_⟩
  · induction chunks generalizing s with
    | nil => rfl
    | cons c cs ih =>
      rw [STTService.stream_recognize, STTService.loopResults, STTService.endState,
        List.append_assoc, ih]
  · rw [STTService.flushResult]
    split_ifs <;> simp
  · intro r hr
    rw [STTService.flushResult] at hr
    split_ifs at hr with h
    · exact absurd hr (List.not_mem_nil r)
    · rw [List.mem_singleton] at hr
      subst hr
      exact ⟨rfl, h⟩
  · rw [STTService.flushResult]
    split_ifs with h
    · simp [h]
    · simp [h]

/-- Claim C8: every result yielded by stream_recognize, whether from the
per-chunk loop or from the trailing flush, has nonempty text; empty or
whitespace-only recognizer text is stripped to the empty string and
filtered out. -/
theorem stream_recognize_text_nonempty {σ Chunk : Type} (R : VoskRecognizer σ Chunk)
    (s : σ) (chunks : List Chunk) (r : STTResult)
    (hr : r ∈ STTService.stream_recognize R s chunks) : r.text ≠ "" := by
  induction chunks generalizing s with
  | nil =>
    rw [STTService.stream_recognize, STTService.flushResult] at hr
    split_ifs at hr with h
    · exact absurd hr (List.not_mem_nil r)
    · rw [List.mem_singleton] at hr
      subst hr
      exact h
  | cons c cs ih =>
    rw [STTService.stream_recognize, List.mem_append] at hr
    rcases hr with hr | hr
    · simp only [STTService.emitted] at hr
      split_ifs at hr with h1 h2 h3
      · exact absurd hr (List.not_mem_nil r)
      · rw [List.mem_singleton] at hr
        subst hr
        exact h2
      · exact absurd hr (List.not_mem_nil r)
      · rw [List.mem_singleton] at hr
        subst hr
        exact h3
    · exact ih _ hr

/-- Insert a string into an already sorted list, keeping it sorted:
one step of sorting the recipient list. -/
def insertStr (x : String) : List String → List String
  | [] => [x]
  | y :: ys => if x ≤ y then x :: y :: ys else y :: insertStr x ys

/-- The sorted(recipients) computation inside the rate-limit key of
EmailService (_check_rate_limit and _update_rate_limit). -/
def sortedRecipients : List String → List String
  | [] => []
  | x :: xs => insertStr x (sortedRecipients xs)

/-- The rate-limit dictionary key
f-string(email_type, hash(tuple(sorted(recipients)))), modelled as the
pair of the email type and the sorted recipient list (the hash is taken
injective). -/
def rateLimitKey (email_type : String) (recipients : List String) :
    String × List String :=
  (email_type, sortedRecipients recipients)

/-- Mutable state of EmailService that the alert path reads and writes:
the rate_limit dictionary from keys to the datetime of the last send,
with time modelled as rational seconds. -/
structure EmailServiceState where
  rateLimit : String × List String → Option ℚ

/-- EmailService._check_rate_limit at time now: allowed unless the key
was sent to before and the email type is sentiment_alert with less than
300 seconds elapsed since that send. -/
def EmailService.check_rate_limit (st : EmailServiceState) (email_type : String)
    (recipients : List String) (now : ℚ) : Bool :=
  match st.rateLimit (rateLimitKey email_type recipients) with
  | none => true
  | some lastSent =>
      if email_type = "sentiment_alert" ∧ now - lastSent < 300 then false else true

/-- EmailService._update_rate_limit at time now: record now as the last
send time for the key. -/
def EmailService.update_rate_limit (st : EmailServiceState) (email_type : String)
    (recipients : List String) (now : ℚ) : EmailServiceState :=
  { rateLimit := fun k =>
      if k = rateLimitKey email_type recipients then some now
      else st.rateLimit k }

/-- Inputs of one EmailService.send_sentiment_alert call: the wall-clock
time of the call, the recipient list, the session id carried by
alert_data, whether self.mail_client is configured, and whether the
template rendering and SMTP send complete without raising. -/
structure AlertCall where
  now : ℚ
  recipients : List String
  session_id : String
  mailConfigured : Bool
  deliveryOk : Bool

/-- Observable outcome of one send_sentiment_alert call: the returned
boolean and whether an alert email was dispatched. -/
structure AlertOutcome where
  returned : Bool
  emailSent : Bool
deriving DecidableEq

/-- EmailService.send_sentiment_alert: return False when the mail client
is not configured; return False without sending when _check_rate_limit
refuses; return False when rendering or sending raises (the rate limit
is then not updated); otherwise send, record the send time under the
key via _update_rate_limit, and return True. -/
def EmailService.send_sentiment_alert (st : EmailServiceState) (c : AlertCall) :
    AlertOutcome × EmailServiceState :=
  if c.mailConfigured = false then ({ returned := false, emailSent := false }, st)
  else if EmailService.check_rate_limit st "sentiment_alert" c.recipients c.now = false then
    ({ returned := false, emailSent := false }, st)
  else if c.deliveryOk = false then ({ returned := false, emailSent := false }, st)
  else ({ returned := true, emailSent := true },
    EmailService.update_rate_limit st "sentiment_alert" c.recipients c.now)

/-- One step of the email-service state across a call: the state
returned by send_sentiment_alert. -/
def alertStep (st : EmailServiceState) (c : AlertCall) : EmailServiceState :=
  (EmailService.send_sentiment_alert st c).2

/-- A call that returns True took the success path: its post state is
the rate-limit update at the call time. -/
theorem send_success_state (st : EmailServiceState) (c : AlertCall)
    (h : (EmailService.send_sentiment_alert st c).1.returned = true) :
    (EmailService.send_sentiment_alert st c).2 =
      EmailService.update_rate_limit st "sentiment_alert" c.recipients c.now := by
  rw [EmailService.send_sentiment_alert] at h ⊢
  split_ifs at h ⊢
  rfl

/-- A sentiment-alert call whose key carries a last-send time less than
300 seconds old returns False, dispatches nothing, and leaves the state
unchanged. -/
theorem send_blocked (st : EmailServiceState) (c : AlertCall) (t : ℚ)
    (ht : st.rateLimit (rateLimitKey "sentiment_alert" c.recipients) = some t)
    (hrecent : c.now - t < 300) :
    (EmailService.send_sentiment_alert st c).1.returned = false ∧
      (EmailService.send_sentiment_alert st c).1.emailSent = false ∧
      (EmailService.send_sentiment_alert st c).2 = st := by
  have hcheck : EmailService.check_rate_limit st "sentiment_alert" c.recipients c.now =
      false := by
    simp only [EmailService.check_rate_limit, ht]
    simp [hrecent]
  rw [EmailService.send_sentiment_alert]
  by_cases h1 : c.mailConfigured = false
  · rw [if_pos h1]
    exact ⟨rfl, rfl, rfl⟩
  · rw [if_neg h1, if_pos hcheck]
    exact ⟨rfl, rfl, rfl⟩

/-- A configured, successfully delivering sentiment-alert call whose key
either was never sent to or was last sent to at least 300 seconds ago
returns True and dispatches the alert. -/
theorem send_allowed (st : EmailServiceState) (c : AlertCall)
    (hmail : c.mailConfigured = true) (hdel : c.deliveryOk = true)
    (hok : ∀ t, st.rateLimit (rateLimitKey "sentiment_alert" c.recipients) = some t →
      300 ≤ c.now - t) :
    (EmailService.send_sentiment_alert st c).1.returned = true ∧
      (EmailService.send_sentiment_alert st c).1.emailSent = true := by
  have hcheck : EmailService.check_rate_limit st "sentiment_alert" c.recipients c.now =
      true := by
    cases hm : st.rateLimit (rateLimitKey "sentiment_alert" c.recipients) with
    | none => simp only [EmailService.check_rate_limit, hm]
    | some t =>
      simp only [EmailService.check_rate_limit, hm]
      rw [if_neg]
      intro hcontra
      exact absurd (hok t hm) (not_le.mpr hcontra.2)
  rw [EmailService.send_sentiment_alert]
  rw [if_neg (by rw [hmail]; decide), if_neg (by rw [hcheck]; decide),
    if_neg (by rw [hdel]; decide)]
  exact ⟨rfl, rfl⟩

/-- Each send_sentiment_alert call either leaves the email-service state
unchanged or replaces it with the rate-limit update at the call time. -/
theorem alertStep_state (st : EmailServiceState) (c : AlertCall) :
    alertStep st c = st ∨
      alertStep st c =
        EmailService.update_rate_limit st "sentiment_alert" c.recipients c.now := by
  rw [alertStep, EmailService.send_sentiment_alert]
  split_ifs
  · exact Or.inl rfl
  · exact Or.inl rfl
  · exact Or.inl rfl
  · exact Or.inr rfl

/-- Across any sequence of further send_sentiment_alert calls none of
which happens before time t0, a rate-limit entry that holds some time at
least t0 keeps holding some time at least t0: entries are only ever
overwritten with the time of a later call. -/
theorem rateLimit_entry_mono (k : String × List String) :
    ∀ (cs : List AlertCall) (st : EmailServiceState) (t0 t : ℚ),
      st.rateLimit k = some t → t0 ≤ t → (∀ c ∈ cs, t0 ≤ c.now) →
      ∃ t2, (cs.foldl alertStep st).rateLimit k = some t2 ∧ t0 ≤ t2 := by
  intro cs
  induction cs with
  | nil => exact fun st t0 t ht h0 _ => ⟨t, ht, h0⟩
  | cons c cs ih =>
    intro st t0 t ht h0 hall
    rw [List.foldl_cons]
    have hstep : ∃ t1, (alertStep st c).rateLimit k = some t1 ∧ t0 ≤ t1 := by
      rcases alertStep_state st c with hs | hs
      · rw [hs]
        exact ⟨t, ht, h0⟩
      · rw [hs]
        by_cases hk : k = rateLimitKey "sentiment_alert" c.recipients
        · exact ⟨c.now, by simp [EmailService.update_rate_limit, hk],
            hall c (List.mem_cons_self c cs)⟩
        · exact ⟨t, by simp [EmailService.update_rate_limit, hk, ht], h0⟩
    obtain ⟨t1, ht1, h01⟩ := hstep
    exact ih _ t0 t1 ht1 h01 (fun c2 hc2 => hall c2 (List.mem_cons_of_mem c hc2))

/-- Claim C10: after a send_sentiment_alert call that successfully sends
to a recipient set, and across any sequence of further calls happening
no earlier, a call for the same recipient set made less than 300 seconds
after that success returns False and dispatches no email; and whenever
at least 300 seconds have elapsed since the recorded last send for the
recipient set, a configured and successfully delivering call returns
True again. -/
theorem send_sentiment_alert_cooldown (st : EmailServiceState)
    (c1 : AlertCall) (cs : List AlertCall) (c2 : AlertCall)
    (hsucc : (EmailService.send_sentiment_alert st c1).1.returned = true)
    (hlater : ∀ c ∈ cs, c1.now ≤ c.now)
    (hsame : sortedRecipients c2.recipients = sortedRecipients c1.recipients) :
    ((c2.now - c1.now < 300 →
        (EmailService.send_sentiment_alert
            (cs.foldl alertStep (EmailService.send_sentiment_alert st c1).2)
            c2).1.returned = false ∧
          (EmailService.send_sentiment_alert
            (cs.foldl alertStep (EmailService.send_sentiment_alert st c1).2)
            c2).1.emailSent = false) ∧
      (∀ t3, (cs.foldl alertStep
            (EmailService.send_sentiment_alert st c1).2).rateLimit
            (rateLimitKey "sentiment_alert" c2.recipients) = some t3 →
          300 ≤ c2.now - t3 → c2.mailConfigured = true → c2.deliveryOk = true →
          (EmailService.send_sentiment_alert
            (cs.foldl alertStep (EmailService.send_sentiment_alert st c1).2)
            c2).1.returned = true)) := by
  have hkey : rateLimitKey "sentiment_alert" c2.recipients =
      rateLimitKey "sentiment_alert" c1.recipients := by
    simp only [rateLimitKey, hsame]
  have hst1 : (EmailService.send_sentiment_alert st c1).2.rateLimit
      (rateLimitKey "sentiment_alert" c1.recipients) = some c1.now := by
    rw [send_success_state st c1 hsucc]
    simp [EmailService.update_rate_limit]
  obtain ⟨t2, ht2, hle⟩ :=
    rateLimit_entry_mono (rateLimitKey "sentiment_alert" c1.recipients) cs
      (EmailService.send_sentiment_alert st c1).2 c1.now c1.now hst1 le_rfl hlater
  constructor
  · intro h300
    have hblocked := send_blocked
      (cs.foldl alertStep (EmailService.send_sentiment_alert st c1).2) c2 t2
      (by rw [hkey]; exact ht2) (by linarith)
    exact ⟨hblocked.1, hblocked.2.1⟩
  · intro t3 ht3 h300 hm hd
    refine (send_allowed _ c2 hm hd ?_).1
    intro t ht'
    have he : some t = some t3 := ht'.symm.trans ht3
    rw [Option.some_inj] at he
    rw [he]
    exact h300

/-- Claim C2 (amended): the alert cooldown is keyed by the recipient set
(email type and sorted recipient list), not by the session: after a
successful sentiment alert to a recipient set, a second qualifying call
for the same recipient set less than 300 seconds later dispatches
nothing and returns False, so those two evaluations produce exactly one
dispatched notification, and a third qualifying call for that recipient
set made at least 300 seconds after the first, configured and
delivering, dispatches a second notification. -/
theorem alert_cooldown_per_recipients (st : EmailServiceState)
    (c1 c2 c3 : AlertCall)
    (hsucc : (EmailService.send_sentiment_alert st c1).1.returned = true)
    (h12 : sortedRecipients c2.recipients = sortedRecipients c1.recipients)
    (h13 : sortedRecipients c3.recipients = sortedRecipients c1.recipients)
    (hwithin : c2.now - c1.now < 300)
    (hafter : 300 ≤ c3.now - c1.now)
    (hm3 : c3.mailConfigured = true) (hd3 : c3.deliveryOk = true) :
    ((EmailService.send_sentiment_alert
        (EmailService.send_sentiment_alert st c1).2 c2).1.returned = false ∧
      (EmailService.send_sentiment_alert
        (EmailService.send_sentiment_alert st c1).2 c2).1.emailSent = false ∧
      (EmailService.send_sentiment_alert
        (EmailService.send_sentiment_alert
          (EmailService.send_sentiment_alert st c1).2 c2).2 c3).1.returned = true ∧
      (EmailService.send_sentiment_alert
        (EmailService.send_sentiment_alert
          (EmailService.send_sentiment_alert st c1).2 c2).2 c3).1.emailSent = true) := by
  have hkey12 : rateLimitKey "sentiment_alert" c2.recipients =
      rateLimitKey "sentiment_alert" c1.recipients := by
    simp only [rateLimitKey, h12]
  have hkey13 : rateLimitKey "sentiment_alert" c3.recipients =
      rateLimitKey "sentiment_alert" c1.recipients := by
    simp only [rateLimitKey, h13]
  have hst1 : (EmailService.send_sentiment_alert st c1).2.rateLimit
      (rateLimitKey "sentiment_alert" c1.recipients) = some c1.now := by
    rw [send_success_state st c1 hsucc]
    simp [EmailService.update_rate_limit]
  have hb := send_blocked (EmailService.send_sentiment_alert st c1).2 c2 c1.now
    (by rw [hkey12]; exact hst1) hwithin
  have h3 := send_allowed
    (EmailService.send_sentiment_alert
      (EmailService.send_sentiment_alert st c1).2 c2).2 c3 hm3 hd3 (by
    intro t ht'
    rw [hb.2.2, hkey13] at ht'
    have he : some t = some c1.now := ht'.symm.trans hst1
    rw [Option.some_inj] at he
    rw [he]
    exact hafter)
  exact ⟨hb.1, hb.2.1, h3.1, h3.2⟩

/-- Email-service state with an empty rate_limit dictionary (a freshly
constructed EmailService). -/
def emailState0 : EmailServiceState := ⟨fun _ => none⟩

/-- A qualifying alert call for session m1 at time 0 to one recipient. -/
def alertCallA : AlertCall := ⟨0, ["ops@example.com"], "m1", true, true⟩

/-- A qualifying alert call for the same session m1, 10 seconds later,
to a different recipient. -/
def alertCallB : AlertCall := ⟨10, ["lead@example.com"], "m1", true, true⟩

/-- Claim C2 counterexample: two send_sentiment_alert calls for the same
session only 10 seconds apart are both dispatched when their recipient
sets differ, because the rate limit is keyed by the recipient set and
never consults the session id. -/
theorem alert_cooldown_not_per_session :
    ((EmailService.send_sentiment_alert emailState0 alertCallA).1.emailSent = true ∧
      (EmailService.send_sentiment_alert
        (EmailService.send_sentiment_alert emailState0 alertCallA).2
        alertCallB).1.emailSent = true ∧
      alertCallA.session_id = alertCallB.session_id ∧
      alertCallB.now - alertCallA.now < 300) := by
  refine ⟨rfl, ?_, rfl, by norm_num [alertCallA, alertCallB]⟩
  decide

/-- Witness for C1: a 60-second-window tracker holding the single sample
(5, -1), queried at time 10 with threshold -1/2 over the shorter
20-second lookback, reports sustained negativity (mean of one sample). -/
theorem sustained_negative_mean_iff_holds :
    (20 : ℚ) ≤ (60 : ℚ) ∧
      ((SentimentTrendTracker.mk 60 [(5, -1)]).sustained_negative
        (-(1 / 2)) 20 10).1 = true := by
  refine ⟨by norm_num, ?_⟩
  rw [sustained_negative_mean_iff (SentimentTrendTracker.mk 60 [(5, -1)])
    (-(1 / 2)) 20 10 (by norm_num)]
  constructor
  · norm_num [List.filter_cons]
  · norm_num [List.filter_cons]

/-- Witness for C3: adding a sample at time 50 to a sorted two-sample
tracker with window 60 retains the new sample (50, 1/2). -/
theorem tracker_window_invariant_holds :
    ((50 : ℚ), (1 / 2 : ℚ)) ∈
      ((SentimentTrendTracker.mk 60 [(0, -1), (10, 1)]).add 50 (1 / 2)).samples :=
  (tracker_window_invariant (SentimentTrendTracker.mk 60 [(0, -1), (10, 1)])
    50 (1 / 2) (-(1 / 2)) 20 (by decide) (by decide) (by norm_num)).2.1

/-- Witness for C4: on the tracker with compound values 0.2, -0.4, 0.6
the average times the sample count gives back the sum of the values. -/
theorem average_is_mean_holds :
    trendTrackerA.average * (trendTrackerA.samples.length : ℚ) =
      (trendTrackerA.samples.map Prod.snd).sum :=
  (average_is_mean trendTrackerA).1

/-- Tracker holding the same compound values as trendTrackerA in another
arrival order. -/
def trendTrackerB : SentimentTrendTracker :=
  ⟨60, [(7, -2 / 5), (9, 1 / 5), (11, 3 / 5)]⟩

/-- Witness for C7: the two trackers holding the compound values 0.2,
-0.4, 0.6 in different arrival orders have equal averages. -/
theorem average_perm_invariant_holds :
    trendTrackerA.average = trendTrackerB.average :=
  average_perm_invariant.1 trendTrackerA trendTrackerB
    (List.Perm.swap (-2 / 5) (1 / 5) [3 / 5])

/-- Witness for C9: the tracker ⟨60, [(0, -1), (100, 1)]⟩ queried at
time 100 keeps exactly the samples of the pre state with timestamp at
least 40. -/
theorem sustained_negative_frame_holds :
    ((SentimentTrendTracker.mk 60 [(0, -1), (100, 1)]).sustained_negative
        (-(1 / 2)) 20 100).2.samples =
      [((0 : ℚ), (-1 : ℚ)), (100, 1)].filter
        (fun s => decide ((100 : ℚ) - 60 ≤ s.1)) :=
  (sustained_negative_frame (SentimentTrendTracker.mk 60 [(0, -1), (100, 1)])
    (-(1 / 2)) 20 100 (by decide)).1

/-- A constant polarity-scores stub whose compound value is -0.3. -/
def vaderStub : String → PolarityScores :=
  fun _ => ⟨-(3 / 10), 0, 7 / 10, 3 / 10⟩

/-- Witness for C6: under the stub analyzer returning compound -0.3,
analyze_text labels the text negative. -/
theorem analyze_text_label_thresholds_holds :
    (SentimentService.analyze_text vaderStub "this is terrible").label = "negative" :=
  (analyze_text_label_thresholds vaderStub "this is terrible").2.1.mpr
    (by norm_num [vaderStub])

/-- A recognizer stub over natural-number states and chunks: every chunk
is accepted as a committed utterance with text hello, and the trailing
flush carries the text bye. -/
def voskStub : VoskRecognizer Nat Nat where
  acceptWaveform := fun s _ => (s + 1, true)
  resultData := fun _ => some "hello"
  interimData := fun _ => some ""
  finalData := fun _ => some "bye"

/-- Witness for C5: on the stub recognizer with one chunk, the stream is
the loop results followed by the trailing flush of the post-loop
state. -/
theorem stream_recognize_flush_holds :
    STTService.stream_recognize voskStub 0 [7] =
      STTService.loopResults voskStub 0 [7] ++
        STTService.flushResult voskStub (STTService.endState voskStub 0 [7]) :=
  (stream_recognize_flush voskStub 0 [7]).1

/-- Witness for C8: the flush result bye yielded by the stub recognizer
on the empty chunk stream has nonempty text. -/
theorem stream_recognize_text_nonempty_holds :
    (STTResult.mk "bye" true ∈ STTService.stream_recognize voskStub 0 [] ∧
      "bye" ≠ "") :=
  ⟨by decide, stream_recognize_text_nonempty voskStub 0 []
    (STTResult.mk "bye" true) (by decide)⟩

/-- A qualifying alert call to the recipient set of alertCallA, 100
seconds after it and for another session. -/
def alertCallC : AlertCall := ⟨100, ["ops@example.com"], "m3", true, true⟩

/-- Witness for C10: after the successful alert of alertCallA at time 0,
the call alertCallC to the same recipient set at time 100 is refused. -/
theorem send_sentiment_alert_cooldown_holds :
    (EmailService.send_sentiment_alert
        (EmailService.send_sentiment_alert emailState0 alertCallA).2
        alertCallC).1.returned = false :=
  ((send_sentiment_alert_cooldown emailState0 alertCallA [] alertCallC
    (by decide) (by simp) rfl).1 (by norm_num [alertCallA, alertCallC])).1

/-- A second qualifying alert call to the recipient set of alertCallA,
50 seconds after it. -/
def alertCallD : AlertCall := ⟨50, ["ops@example.com"], "m2", true, true⟩

/-- A third qualifying alert call to the recipient set of alertCallA,
400 seconds after it. -/
def alertCallE : AlertCall := ⟨400, ["ops@example.com"], "m1", true, true⟩

/-- Witness for C2 (amended): after the successful alert of alertCallA
and the suppressed call alertCallD inside the cooldown, the call
alertCallE placed after the cooldown is dispatched again. -/
theorem alert_cooldown_per_recipients_holds :
    (EmailService.send_sentiment_alert
        (EmailService.send_sentiment_alert
            (EmailService.send_sentiment_alert emailState0 alertCallA).2
            alertCallD).2
        alertCallE).1.returned = true :=
  (alert_cooldown_per_recipients emailState0 alertCallA alertCallD alertCallE
    (by decide) rfl rfl (by norm_num [alertCallA, alertCallD])
    (by norm_num [alertCallA, alertCallE]) rfl rfl).2.2.1
